import Mathlib

/-!
Verification of the servauth auth-gateway layer.

The definitions below are a shallow embedding of the repository's request
validation and request-handling code:

* `src/types/index.ts` — zod schemas (`emailSchema`, `passwordSchema`,
  `nameSchema`, `registerSchema`, `loginSchema`, `updateUserSchema`) and the
  helper `validateRequestBody`;
* `src/routes/auth.ts` (the route file documented by the README, using
  `validateRequestBody` and `transformUserResponse`) — the register, login,
  logout, me (GET/PUT/DELETE) and refresh handlers;
* the draft route file using the `validate` middleware — the
  forgot-password and reset-password handlers;
* `src/middleware/auth.ts` — the `requireAuth` middleware.

Timestamps are modelled as `Nat`, database rows as Lean structures, and the
external Better-Auth delegate as a record of preset responses, so every
handler is a pure executable function from its inputs to an HTTP response,
the new database state and a trace of effects (delegate calls and direct
database operations).
-/

namespace Servauth

/-- A parsed JSON value occupying one field of a request body.  Only strings
are inspected by the schemas; every non-string value is kept abstract with
its JSON type name (used by zod's invalid-type error message). -/
inductive JVal where
  | jstr (s : String)
  | jnum
  | jbool
  | jnull
  | jarr
  | jobj
deriving DecidableEq, Repr

/-- The type name zod reports for a non-string JSON value
("Expected string, received _"). -/
def JVal.typeName : JVal → String
  | .jstr _ => "string"
  | .jnum => "number"
  | .jbool => "boolean"
  | .jnull => "null"
  | .jarr => "array"
  | .jobj => "object"

/-- Characters allowed anywhere in the local part of an email address by the
email regex of the zod library (`z.string().email()` used by `emailSchema`
in `src/types/index.ts`). -/
def isEmailLocalChar (c : Char) : Bool :=
  c.isAlphanum || c == '_' || c == Char.ofNat 39 || c == '+' || c == '-' || c == '.'

/-- Characters allowed as the final character of the local part by zod's
email regex. -/
def isEmailLocalLastChar (c : Char) : Bool :=
  c.isAlphanum || c == '_' || c == '+' || c == '-'

/-- Splits a character list at every occurrence of the separator character
(the list analogue of splitting a string on a one-character separator). -/
def splitOnChar (c : Char) : List Char → List (List Char)
  | [] => [[]]
  | x :: xs =>
    match splitOnChar c xs with
    | [] => [[]]
    | g :: gs => if x == c then [] :: g :: gs else (x :: g) :: gs

/-- Whether the list contains two consecutive dots (the `(?!.*\.\.)`
lookahead of zod's email regex). -/
def hasDoubleDot : List Char → Bool
  | [] => false
  | [_] => false
  | a :: b :: rest => (a == '.' && b == '.') || hasDoubleDot (b :: rest)

/-- One non-final label of the email domain: nonempty, starts with an
alphanumeric character, continues with alphanumerics or hyphens. -/
def emailDomainLabelOk (l : List Char) : Bool :=
  match l with
  | [] => false
  | c :: cs => c.isAlphanum && cs.all fun d => d.isAlphanum || d == '-'

/-- The final label (TLD) of the email domain: at least two letters. -/
def emailTldOk (l : List Char) : Bool :=
  l.length ≥ 2 && l.all Char.isAlpha

/-- Models the `.email()` check of the zod library applied by `emailSchema`:
the regex requires a local part of permitted characters that does not start
with a dot, contains no `..`, and ends in a restricted character, followed by
`@` and a dot-separated domain whose final label is purely alphabetic of
length at least two. -/
def zodEmailCheck (s : String) : Bool :=
  match splitOnChar '@' s.toList with
  | [lp, dom] =>
    (match lp with
     | [] => false
     | c :: _ => c != '.') &&
    lp.all isEmailLocalChar &&
    (match lp.getLast? with
     | some c => isEmailLocalLastChar c
     | none => false) &&
    !hasDoubleDot s.toList &&
    (match (splitOnChar '.' dom).reverse with
     | tld :: rest => emailTldOk tld && rest.length ≥ 1 && rest.all emailDomainLabelOk
     | [] => false)
  | _ => false

/-- JavaScript's `\s` character class (used by `nameSchema`'s regex). -/
def isJsWhitespace (c : Char) : Bool :=
  c == ' ' || c == Char.ofNat 9 || c == Char.ofNat 10 || c == Char.ofNat 11 ||
  c == Char.ofNat 12 || c == Char.ofNat 13 || c == Char.ofNat 0xa0 ||
  c == Char.ofNat 0x1680 || (0x2000 ≤ c.toNat && c.toNat ≤ 0x200a) ||
  c == Char.ofNat 0x2028 || c == Char.ofNat 0x2029 || c == Char.ofNat 0x202f ||
  c == Char.ofNat 0x205f || c == Char.ofNat 0x3000 || c == Char.ofNat 0xfeff

/-- A character permitted by `nameSchema`'s regex `[a-zA-Z\s'-]`. -/
def isNameChar (c : Char) : Bool :=
  c.isAlpha || isJsWhitespace c || c == Char.ofNat 39 || c == '-'

/-- The lookahead regex of `passwordSchema`: at least one lowercase letter,
one uppercase letter and one digit. -/
def passwordComplexityOk (s : String) : Bool :=
  s.toList.any Char.isLower && s.toList.any Char.isUpper && s.toList.any Char.isDigit

/-- The check messages produced by `emailSchema` on a string input, in the
chaining order `.email(...).min(1, ...).max(254, ...)` of
`src/types/index.ts`.  zod runs every check and collects every failure. -/
def emailCheckMsgs (s : String) : List String :=
  (if zodEmailCheck s then [] else ["Invalid email format"]) ++
  (if s.length < 1 then ["Email is required"] else []) ++
  (if s.length > 254 then ["Email is too long"] else [])

/-- The check messages produced by `passwordSchema` on a string input
(`.min(8).max(128).regex(...)`). -/
def passwordCheckMsgs (s : String) : List String :=
  (if s.length < 8 then ["Password must be at least 8 characters"] else []) ++
  (if s.length > 128 then ["Password is too long"] else []) ++
  (if passwordComplexityOk s then []
   else ["Password must contain at least one lowercase letter, one uppercase letter, and one number"])

/-- The check messages produced by `nameSchema` on a string input
(`.min(1).max(100).regex(...)`). -/
def nameCheckMsgs (s : String) : List String :=
  (if s.length < 1 then ["Name is required"] else []) ++
  (if s.length > 100 then ["Name is too long"] else []) ++
  (if s.toList.all isNameChar && s.length ≥ 1 then []
   else ["Name can only contain letters, spaces, hyphens, and apostrophes"])

/-- The check message of `loginSchema`'s password field
(`z.string().min(1, "Password is required")`). -/
def loginPasswordCheckMsgs (s : String) : List String :=
  if s.length < 1 then ["Password is required"] else []

/-- The issue messages zod reports for one required string field of an
object schema: a missing key yields `Required`, a non-string value an
invalid-type issue, and a string value one message per failed check. -/
def fieldIssueMsgs (checks : String → List String) : Option JVal → List String
  | none => ["Required"]
  | some (.jstr s) => checks s
  | some v => ["Expected string, received " ++ v.typeName]

/-- The issue messages zod reports for an optional string field
(`schema.optional()`): an absent key is accepted. -/
def optFieldIssueMsgs (checks : String → List String) : Option JVal → List String
  | none => []
  | some (.jstr s) => checks s
  | some v => ["Expected string, received " ++ v.typeName]

/-- The `(path, message)` issues of one required string field. -/
def fieldIssues (fld : String) (checks : String → List String) (v : Option JVal) :
    List (String × String) :=
  (fieldIssueMsgs checks v).map fun m => (fld, m)

/-- The `(path, message)` issues of one optional string field. -/
def optFieldIssues (fld : String) (checks : String → List String) (v : Option JVal) :
    List (String × String) :=
  (optFieldIssueMsgs checks v).map fun m => (fld, m)

/-- The body of a registration request, restricted to the keys
`registerSchema` inspects (zod object schemas ignore unknown keys). -/
structure RegisterBody where
  email : Option JVal
  password : Option JVal
  name : Option JVal
deriving DecidableEq, Repr

/-- The issues `registerSchema.safeParse` collects, in schema key order
(email, password, name). -/
def registerViolations (b : RegisterBody) : List (String × String) :=
  fieldIssues "email" emailCheckMsgs b.email ++
  fieldIssues "password" passwordCheckMsgs b.password ++
  fieldIssues "name" nameCheckMsgs b.name

/-- `validateRequestBody` formats each zod issue as
`path.join('.') ++ ": " ++ message`. -/
def fmtIssue (p : String × String) : String :=
  p.1 ++ ": " ++ p.2

/-- The `errors` array `validateRequestBody(registerSchema, body)` returns on
failure. -/
def registerErrors (b : RegisterBody) : List String :=
  (registerViolations b).map fmtIssue

/-- The body of a login request restricted to `loginSchema`'s keys. -/
structure LoginBody where
  email : Option JVal
  password : Option JVal
deriving DecidableEq, Repr

/-- The issues `loginSchema.safeParse` collects. -/
def loginViolations (b : LoginBody) : List (String × String) :=
  fieldIssues "email" emailCheckMsgs b.email ++
  fieldIssues "password" loginPasswordCheckMsgs b.password

/-- The body of a profile-update request restricted to `updateUserSchema`'s
keys. -/
structure UpdateBody where
  name : Option JVal
  email : Option JVal
deriving DecidableEq, Repr

/-- The issues `updateUserSchema.safeParse` collects: the field issues of the
inner object, and — only when the inner object parses — the `.refine` issue
with path `["name", "email"]` when both fields are absent. -/
def updateViolations (b : UpdateBody) : List (String × String) :=
  let inner := optFieldIssues "name" nameCheckMsgs b.name ++
    optFieldIssues "email" emailCheckMsgs b.email
  if inner = [] then
    if b.name = none && b.email = none then
      [("name.email", "At least one field (name or email) must be provided")]
    else []
  else inner

/-! ## Data model (`src/db/schema.ts`, `userSchema` in `src/types/index.ts`) -/

/-- A row of the `users` table.  Timestamps are modelled as `Nat`. -/
structure User where
  id : String
  email : String
  emailVerified : Bool
  name : Option String
  image : Option String
  createdAt : Nat
  updatedAt : Nat
deriving DecidableEq, Repr

/-- The session object the delegate attaches to a login or getSession
response (`sessionSchema` fields used by the handlers). -/
structure SessInfo where
  id : String
  token : Option String
  expiresAt : Nat
  userId : String
deriving DecidableEq, Repr

/-- The result object of a successful `auth.api.getSession` call:
the handlers check both `session` itself and `session.user`. -/
structure SessionCtx where
  user : Option User
  session : SessInfo
deriving DecidableEq, Repr

/-- Breaks a character list at the first occurrence of `://`, returning the
parts before and after it. -/
def breakScheme : List Char → Option (List Char × List Char)
  | [] => none
  | ':' :: '/' :: '/' :: rest => some ([], rest)
  | c :: rest =>
    match breakScheme rest with
    | some (a, b) => some (c :: a, b)
    | none => none

/-- Models acceptance by the JavaScript `URL` constructor, which zod's
`.url()` check (on `userSchema.image`) delegates to: a nonempty alphabetic
scheme followed by `://` and a nonempty remainder.  (External-library check;
every claim below exercises it only with `image = none`.) -/
def urlOk (s : String) : Bool :=
  match breakScheme s.toList with
  | some (scheme, rest) => scheme.length ≥ 1 && scheme.all Char.isAlpha && rest.length ≥ 1
  | none => false

/-- The checks `userSchema.parse` applies to a user record inside
`transformUserResponse` (`idSchema` on `id`, `emailSchema` on `email`,
`.url()` on a present `image`; booleans, nullable strings and dates always
pass in this model). -/
def userRecordOk (u : User) : Bool :=
  1 ≤ u.id.length && u.id.length ≤ 255 &&
  emailCheckMsgs u.email = ([] : List String) &&
  (match u.image with
   | none => true
   | some s => urlOk s)

/-- `transformUserResponse` from `src/types/index.ts`: re-parses the record
with `userSchema` (throwing — here `.error` — when it does not conform) and
normalizes the timestamps, which is the identity once dates are `Nat`. -/
def transformUserResponse (u : User) : Except String User :=
  if userRecordOk u then .ok u else .error "Invalid user record"

/-! ## Effects and the external delegate -/

/-- The tables of the database schema. -/
inductive Table where
  | users
  | sessions
  | accounts
  | verifications
deriving DecidableEq, Repr

/-- One observable effect of a handler: a direct database operation through
drizzle, or a call into the Better-Auth delegate. -/
inductive Eff where
  | dbUpdate (t : Table) (id : String) (cols : List String)
  | dbDelete (t : Table) (id : String)
  | dbSelect (t : Table) (id : String)
  | authSignUp (email password name : String)
  | authSignIn (email password : String)
  | authSignOut
  | authGetSession
  | authForgetPassword (email : String)
  | authResetPassword (token newPassword : String)
  | authPassthrough
deriving DecidableEq, Repr

/-- Whether an effect writes the database directly. -/
def Eff.isDbWrite : Eff → Bool
  | .dbUpdate _ _ _ => true
  | .dbDelete _ _ => true
  | _ => false

/-- The response of one Better-Auth HTTP-handler call (`auth.handler`):
status, optional `set-cookie` header, and the JSON body fields the wrapping
handlers read. -/
structure DelegResp where
  status : Nat
  setCookie : Option String
  user : Option User
  session : Option SessInfo
  errMsg : Option String
deriving DecidableEq, Repr

instance {ε α : Type} [DecidableEq ε] [DecidableEq α] : DecidableEq (Except ε α) := fun a b =>
  match a, b with
  | .error e, .error f =>
    if h : e = f then .isTrue (by rw [h]) else .isFalse (by intro hh; cases hh; exact h rfl)
  | .ok x, .ok y =>
    if h : x = y then .isTrue (by rw [h]) else .isFalse (by intro hh; cases hh; exact h rfl)
  | .error _, .ok _ => .isFalse (by intro hh; cases hh)
  | .ok _, .error _ => .isFalse (by intro hh; cases hh)

/-- The external Better-Auth delegate, modelled as the preset outcomes of
its operations for the current request.  `sessionRes` is `Except` because
`getSession` may throw; the other operations report failure through their
response value (spec §4.2: tagged failure, never a raised fault). -/
structure Delegate where
  signUpResp : DelegResp
  signInResp : DelegResp
  signOutResp : DelegResp
  sessionRes : Except String (Option SessionCtx)
  forgetResult : Bool
  resetOk : Bool
deriving DecidableEq, Repr

/-! ## HTTP responses -/

/-- The JSON envelopes the handlers produce. -/
inductive RespBody where
  | errorB (e : String)
  | errorDetails (e : String) (details : List String)
  | validationErrObj (details : List (String × String))
  | messageB (m : String)
  | messageUser (m : String) (u : User)
  | loginOk (m : String) (u : Option User) (s : Option SessInfo)
  | userB (u : User)
  | userSession (u : Option User) (s : SessInfo)
  | healthB (service : String)
  | passthroughB
deriving DecidableEq, Repr

/-- An outgoing HTTP response: status, JSON body, and the `set-cookie`
header when one was forwarded. -/
structure HttpResp where
  status : Nat
  body : RespBody
  setCookie : Option String := none
deriving DecidableEq, Repr

/-! ## Request handlers (`src/routes/auth.ts`, the variant documented by the
README: JSON parse guard, `validateRequestBody`, then delegate call) -/

/-- JavaScript's `error.message || fallback`. -/
def jsErr (e fallback : String) : String :=
  if e = "" then fallback else e

/-- JavaScript's `data.error || fallback` on an optional field. -/
def optErr (o : Option String) (fallback : String) : String :=
  match o with
  | some m => jsErr m fallback
  | none => fallback

/-- The string content of a field already known to hold a JSON string. -/
def getStr : Option JVal → String
  | some (.jstr s) => s
  | _ => ""

/-- `POST /auth/register`: parse guard, `validateRequestBody(registerSchema)`,
forward to the delegate's sign-up, map the user on success. -/
def registerHandler (d : Delegate) : Option RegisterBody → HttpResp × List Eff
  | none => (⟨400, .errorDetails "Invalid JSON format" ["Request body must be valid JSON"], none⟩, [])
  | some b =>
    if registerViolations b = [] then
      let eff : List Eff := [.authSignUp (getStr b.email) (getStr b.password) (getStr b.name)]
      let r := d.signUpResp
      if 400 ≤ r.status then
        (⟨r.status, .errorB (optErr r.errMsg "Registration failed"), none⟩, eff)
      else
        match r.user with
        | some u =>
          match transformUserResponse u with
          | .ok u2 => (⟨201, .messageUser "Registration successful" u2, none⟩, eff)
          | .error msg => (⟨500, .errorB (jsErr msg "Registration failed"), none⟩, eff)
        | none => (⟨500, .errorB "Registration failed", none⟩, eff)
    else
      (⟨400, .errorDetails "Validation failed" (registerErrors b), none⟩, [])

/-- `POST /auth/login`: parse guard, `validateRequestBody(loginSchema)`,
forward to sign-in; the delegate's `set-cookie` header is copied onto the
response before the status check, and every delegate failure is mapped to
401 "Invalid credentials". -/
def loginHandler (d : Delegate) : Option LoginBody → HttpResp × List Eff
  | none => (⟨400, .errorDetails "Invalid JSON format" ["Request body must be valid JSON"], none⟩, [])
  | some b =>
    if loginViolations b = [] then
      let eff : List Eff := [.authSignIn (getStr b.email) (getStr b.password)]
      let r := d.signInResp
      if 400 ≤ r.status then
        (⟨401, .errorB "Invalid credentials", r.setCookie⟩, eff)
      else
        match r.user with
        | some u =>
          match transformUserResponse u with
          | .ok u2 => (⟨200, .loginOk "Login successful" (some u2) r.session, r.setCookie⟩, eff)
          | .error msg => (⟨500, .errorB (jsErr msg "Login failed"), r.setCookie⟩, eff)
        | none => (⟨500, .errorB "Login failed", r.setCookie⟩, eff)
    else
      (⟨400, .errorDetails "Validation failed" ((loginViolations b).map fmtIssue), none⟩, [])

/-- `POST /auth/logout`: forwards the request to the delegate's sign-out
without inspecting the session, copies the cookie-clearing header, and
responds 200. -/
def logoutHandler (d : Delegate) : HttpResp × List Eff :=
  (⟨200, .messageB "Logout successful", d.signOutResp.setCookie⟩, [.authSignOut])

/-- `GET /auth/me`: resolve the session, 401 on absence, otherwise respond
with the mapped user; a thrown fault (including a mapping failure) yields
401 "Failed to get user". -/
def getMeHandler (d : Delegate) : HttpResp × List Eff :=
  match d.sessionRes with
  | .error _ => (⟨401, .errorB "Failed to get user", none⟩, [.authGetSession])
  | .ok none => (⟨401, .errorB "Unauthorized", none⟩, [.authGetSession])
  | .ok (some ctx) =>
    match ctx.user with
    | none => (⟨401, .errorB "Unauthorized", none⟩, [.authGetSession])
    | some u =>
      match transformUserResponse u with
      | .ok u2 => (⟨200, .userB u2, none⟩, [.authGetSession])
      | .error _ => (⟨401, .errorB "Failed to get user", none⟩, [.authGetSession])

/-- The row update `PUT /auth/me` performs: only the provided fields, plus
`updatedAt` stamped to the current time. -/
def applyRowUpdate (r : User) (b : UpdateBody) (now : Nat) : User :=
  { r with
    name := match b.name with
      | some (.jstr n) => some n
      | _ => r.name
    email := match b.email with
      | some (.jstr e) => e
      | _ => r.email
    updatedAt := now }

/-- `db.update(users).set(updates).where(eq(users.id, uid))`. -/
def applyUserUpdate (db : List User) (uid : String) (b : UpdateBody) (now : Nat) : List User :=
  db.map fun r => if r.id = uid then applyRowUpdate r b now else r

/-- The column list of the drizzle `set` object built by `PUT /auth/me`, in
the order the handler assigns the keys. -/
def updateCols (b : UpdateBody) : List String :=
  (if b.name ≠ none then ["name"] else []) ++
  (if b.email ≠ none then ["email"] else []) ++
  ["updatedAt"]

/-- `PUT /auth/me`: session gate, parse guard,
`validateRequestBody(updateUserSchema)`, apply the provided fields with a
fresh `updatedAt`, re-read the row and respond with the mapped user. -/
def putMeHandler (d : Delegate) (body : Option UpdateBody) (db : List User) (now : Nat) :
    HttpResp × List User × List Eff :=
  match d.sessionRes with
  | .error msg => (⟨500, .errorB (jsErr msg "Failed to update user"), none⟩, db, [.authGetSession])
  | .ok none => (⟨401, .errorB "Unauthorized", none⟩, db, [.authGetSession])
  | .ok (some ctx) =>
    match ctx.user with
    | none => (⟨401, .errorB "Unauthorized", none⟩, db, [.authGetSession])
    | some u =>
      match body with
      | none =>
        (⟨400, .errorDetails "Invalid JSON format" ["Request body must be valid JSON"], none⟩,
          db, [.authGetSession])
      | some b =>
        if updateViolations b = [] then
          let skip := b.name = none && b.email = none
          let newDb := if skip then db else applyUserUpdate db u.id b now
          let effs : List Eff := [.authGetSession] ++
            (if skip then [] else [.dbUpdate .users u.id (updateCols b)]) ++
            [.dbSelect .users u.id]
          let resp : HttpResp :=
            match newDb.find? (fun r => r.id == u.id) with
            | some r =>
              match transformUserResponse r with
              | .ok r2 => ⟨200, .userB r2, none⟩
              | .error msg => ⟨500, .errorB (jsErr msg "Failed to update user"), none⟩
            | none => ⟨500, .errorB "Failed to update user", none⟩
          (resp, newDb, effs)
        else
          (⟨400, .errorDetails "Validation failed" ((updateViolations b).map fmtIssue), none⟩,
            db, [.authGetSession])

/-- `DELETE /auth/me`: session gate, delete the user row, forward the
delegate's sign-out to clear the cookie, respond 200. -/
def deleteMeHandler (d : Delegate) (db : List User) : HttpResp × List User × List Eff :=
  match d.sessionRes with
  | .error msg => (⟨500, .errorB (jsErr msg "Failed to delete account"), none⟩, db, [.authGetSession])
  | .ok none => (⟨401, .errorB "Unauthorized", none⟩, db, [.authGetSession])
  | .ok (some ctx) =>
    match ctx.user with
    | none => (⟨401, .errorB "Unauthorized", none⟩, db, [.authGetSession])
    | some u =>
      (⟨200, .messageB "Account deleted successfully", d.signOutResp.setCookie⟩,
        db.filter (fun r => r.id ≠ u.id),
        [.authGetSession, .dbDelete .users u.id, .authSignOut])

/-- `POST /auth/refresh`: inline session check, 401 "No active session" on
absence, otherwise 200 with the session's user and session objects. -/
def refreshHandler (d : Delegate) : HttpResp × List Eff :=
  match d.sessionRes with
  | .error msg => (⟨500, .errorB (jsErr msg "Session refresh failed"), none⟩, [.authGetSession])
  | .ok none => (⟨401, .errorB "No active session", none⟩, [.authGetSession])
  | .ok (some ctx) => (⟨200, .userSession ctx.user ctx.session, none⟩, [.authGetSession])

/-- The body of a forgot-password request. -/
structure ForgotBody where
  email : Option JVal
deriving DecidableEq, Repr

/-- Modelled from the spec: `ResetPasswordSchema`, the forgot-password body
schema the draft route file imports from `../types`, is not in the source
tree; spec §4.1 gives its single rule — `forgotPassword.email`: valid email
syntax. -/
def forgotBodyValid (b : ForgotBody) : Bool :=
  match b.email with
  | some (.jstr s) => zodEmailCheck s
  | _ => false

/-- The email string of a schema-valid forgot-password body. -/
def forgotEmail (b : ForgotBody) : String :=
  match b.email with
  | some (.jstr s) => s
  | _ => ""

/-- `POST /auth/forgot-password`: validate, call the delegate's
forget-password, and respond 200 with a fixed generic message without
inspecting the delegate's result (the delegate argument is provably
unread). -/
def forgotPasswordHandler (_d : Delegate) : Option ForgotBody → HttpResp × List Eff
  | none => (⟨400, .errorB "Invalid request body", none⟩, [])
  | some b =>
    if forgotBodyValid b then
      (⟨200, .messageB "If an account exists with this email, a password reset link has been sent", none⟩,
        [.authForgetPassword (forgotEmail b)])
    else
      (⟨400, .validationErrObj [("email", "Invalid email")], none⟩, [])

/-- The body of a reset-password request. -/
structure ResetBody where
  token : Option JVal
  password : Option JVal
deriving DecidableEq, Repr

/-- Modelled from the spec: `NewPasswordSchema`, the reset-password body
schema the draft route file imports from `../types`, is not in the source
tree; spec §4.1 gives its rules — `resetPassword.token`: non-empty string,
`resetPassword.password`: same rule as `register.password`. -/
def resetBodyValid (b : ResetBody) : Bool :=
  match b.token, b.password with
  | some (.jstr t), some (.jstr p) => t.length ≥ 1 && passwordCheckMsgs p = ([] : List String)
  | _, _ => false

/-- `POST /auth/reset-password`: validate, call the delegate's
reset-password, 200 on success and 400 "Invalid or expired token" on a
tagged failure. -/
def resetPasswordHandler (d : Delegate) : Option ResetBody → HttpResp × List Eff
  | none => (⟨400, .errorB "Invalid request body", none⟩, [])
  | some b =>
    if resetBodyValid b then
      let eff : List Eff := [.authResetPassword (getStr b.token) (getStr b.password)]
      if d.resetOk then
        (⟨200, .messageB "Password reset successful", none⟩, eff)
      else
        (⟨400, .errorB "Invalid or expired token", none⟩, eff)
    else
      (⟨400, .validationErrObj [("token", "Invalid token"), ("password", "Invalid password")], none⟩, [])

/-- `requireAuth` from `src/middleware/auth.ts`: resolve the session inside
a try/catch; a missing session or user yields 401 "Unauthorized", a thrown
fault — from session resolution or from the wrapped handler — yields 401
"Authentication failed", and otherwise the wrapped handler's response is
returned. -/
def requireAuth (sessionRes : Except String (Option SessionCtx))
    (next : Except String HttpResp) : HttpResp :=
  match sessionRes with
  | .error _ => ⟨401, .errorB "Authentication failed", none⟩
  | .ok none => ⟨401, .errorB "Unauthorized", none⟩
  | .ok (some ctx) =>
    match ctx.user with
    | none => ⟨401, .errorB "Unauthorized", none⟩
    | some _ =>
      match next with
      | .ok r => r
      | .error _ => ⟨401, .errorB "Authentication failed", none⟩

/-! ## The router -/

/-- One incoming request to the service, dispatched by method and path. -/
inductive ApiRequest where
  | health
  | passthrough
  | register (body : Option RegisterBody)
  | login (body : Option LoginBody)
  | logout
  | refresh
  | getMe
  | putMe (body : Option UpdateBody)
  | deleteMe
  | forgotPassword (body : Option ForgotBody)
  | resetPassword (body : Option ResetBody)
  | notFound
deriving DecidableEq, Repr

/-- The whole service: dispatch a request to its handler, returning the
response, the resulting `users` table and the trace of effects. -/
def serveRequest (req : ApiRequest) (d : Delegate) (db : List User) (now : Nat) :
    HttpResp × List User × List Eff :=
  match req with
  | .health => (⟨200, .healthB "auth-server", none⟩, db, [])
  | .passthrough => (⟨0, .passthroughB, none⟩, db, [.authPassthrough])
  | .register b => let r := registerHandler d b; (r.1, db, r.2)
  | .login b => let r := loginHandler d b; (r.1, db, r.2)
  | .logout => let r := logoutHandler d; (r.1, db, r.2)
  | .refresh => let r := refreshHandler d; (r.1, db, r.2)
  | .getMe => let r := getMeHandler d; (r.1, db, r.2)
  | .putMe b => putMeHandler d b db now
  | .deleteMe => deleteMeHandler d db
  | .forgotPassword b => let r := forgotPasswordHandler d b; (r.1, db, r.2)
  | .resetPassword b => let r := resetPasswordHandler d b; (r.1, db, r.2)
  | .notFound => (⟨404, .errorB "Not found", none⟩, db, [])

/-! ## Fixtures for concrete evaluations -/

/-- A delegate response carrying no data. -/
def emptyDelegResp : DelegResp :=
  ⟨200, none, none, none, none⟩

/-- A sample user row. -/
def sampleUser : User :=
  ⟨"u1", "alice@example.com", false, some "Alice", none, 1, 1⟩

/-- A sample session object for `sampleUser`. -/
def sampleSession : SessInfo :=
  ⟨"s1", some "tok", 100, "u1"⟩

/-- A resolved session context for `sampleUser`. -/
def sampleCtx : SessionCtx :=
  ⟨some sampleUser, sampleSession⟩

/-- A delegate that resolves no session for the current request. -/
def noSessionDelegate : Delegate :=
  ⟨emptyDelegResp, emptyDelegResp, emptyDelegResp, .ok none, true, true⟩

/-- A delegate that resolves `sampleCtx` for the current request. -/
def sampleSessionDelegate : Delegate :=
  ⟨emptyDelegResp, emptyDelegResp, emptyDelegResp, .ok (some sampleCtx), true, true⟩

/-- A delegate whose sign-in fails because the email is unknown. -/
def rejectNoUserDelegate : Delegate :=
  ⟨emptyDelegResp, ⟨401, none, none, none, some "User not found"⟩, emptyDelegResp, .ok none, true, true⟩

/-- A delegate whose sign-in fails because the password is wrong. -/
def rejectBadPasswordDelegate : Delegate :=
  ⟨emptyDelegResp, ⟨401, none, none, none, some "Invalid password"⟩, emptyDelegResp, .ok none, true, true⟩

/-- A schema-valid login body. -/
def sampleLoginBody : LoginBody :=
  ⟨some (.jstr "alice@example.com"), some (.jstr "anything")⟩

/-! ## Claims -/

/-- C3: for every login request whose credentials the auth delegate rejects —
whether the email is unknown or the password is wrong — the response has
status 401 with the body `{"error": "Invalid credentials"}`, identical for
any two delegate failures. -/
theorem login_rejected_uniform_401 (d1 d2 : Delegate) (b1 b2 : LoginBody)
    (hv1 : loginViolations b1 = []) (hv2 : loginViolations b2 = [])
    (h1 : 400 ≤ d1.signInResp.status) (h2 : 400 ≤ d2.signInResp.status) :
    (loginHandler d1 (some b1)).1.status = 401 ∧
    (loginHandler d1 (some b1)).1.body = .errorB "Invalid credentials" ∧
    (loginHandler d1 (some b1)).1.body = (loginHandler d2 (some b2)).1.body := by
  simp [loginHandler, hv1, hv2, h1, h2]

/-- Witness for C3: a concrete unknown-email rejection and a concrete
wrong-password rejection produce the identical 401 body. -/
theorem login_rejected_uniform_401_witness :
    loginViolations sampleLoginBody = [] ∧
    400 ≤ rejectNoUserDelegate.signInResp.status ∧
    400 ≤ rejectBadPasswordDelegate.signInResp.status ∧
    ((loginHandler rejectNoUserDelegate (some sampleLoginBody)).1.status = 401 ∧
      (loginHandler rejectNoUserDelegate (some sampleLoginBody)).1.body = .errorB "Invalid credentials" ∧
      (loginHandler rejectNoUserDelegate (some sampleLoginBody)).1.body =
        (loginHandler rejectBadPasswordDelegate (some sampleLoginBody)).1.body) :=
  ⟨by decide, by decide, by decide,
    login_rejected_uniform_401 rejectNoUserDelegate rejectBadPasswordDelegate
      sampleLoginBody sampleLoginBody (by decide) (by decide) (by decide) (by decide)⟩

/-- C9: when the delegate's login response fails (status ≥ 400) but carries a
`set-cookie` header, the handler has already copied that header onto the
outgoing response, so the 401 "Invalid credentials" response includes it. -/
theorem login_failure_keeps_delegate_cookie (d : Delegate) (b : LoginBody) (v : String)
    (hv : loginViolations b = []) (h : 400 ≤ d.signInResp.status)
    (hc : d.signInResp.setCookie = some v) :
    (loginHandler d (some b)).1 = ⟨401, .errorB "Invalid credentials", some v⟩ := by
  simp [loginHandler, hv, h, hc]

/-- A delegate whose sign-in fails with status 401 yet sets a cookie. -/
def rejectWithCookieDelegate : Delegate :=
  ⟨emptyDelegResp, ⟨401, some "better-auth.session_token=x", none, none, some "Invalid password"⟩,
    emptyDelegResp, .ok none, true, true⟩

/-- Witness for C9 at a concrete failing delegate response with a cookie. -/
theorem login_failure_keeps_delegate_cookie_witness :
    loginViolations sampleLoginBody = [] ∧
    400 ≤ rejectWithCookieDelegate.signInResp.status ∧
    rejectWithCookieDelegate.signInResp.setCookie = some "better-auth.session_token=x" ∧
    (loginHandler rejectWithCookieDelegate (some sampleLoginBody)).1 =
      ⟨401, .errorB "Invalid credentials", some "better-auth.session_token=x"⟩ :=
  ⟨by decide, by decide, by decide,
    login_failure_keeps_delegate_cookie rejectWithCookieDelegate sampleLoginBody
      "better-auth.session_token=x" (by decide) (by decide) (by decide)⟩

/-- C10: when session resolution throws, `requireAuth` catches the fault and
answers 401 `{"error": "Authentication failed"}` itself, for any wrapped
handler — the fault never propagates to the global 500 error handler. -/
theorem requireAuth_catches_session_fault (e : String) (next : Except String HttpResp) :
    requireAuth (.error e) next = ⟨401, .errorB "Authentication failed", none⟩ :=
  rfl

/-- C6: any two schema-valid forgot-password requests — one for a registered
email, one for an unregistered one, under any delegate outcomes — receive
status 200 with the identical generic response. -/
theorem forgot_password_email_oblivious (d1 d2 : Delegate) (b1 b2 : ForgotBody)
    (h1 : forgotBodyValid b1 = true) (h2 : forgotBodyValid b2 = true) :
    (forgotPasswordHandler d1 (some b1)).1.status = 200 ∧
    (forgotPasswordHandler d1 (some b1)).1.body =
      .messageB "If an account exists with this email, a password reset link has been sent" ∧
    (forgotPasswordHandler d1 (some b1)).1 = (forgotPasswordHandler d2 (some b2)).1 := by
  simp [forgotPasswordHandler, h1, h2]

/-- A delegate standing for the state in which `alice@example.com` is
registered. -/
def registeredEmailDelegate : Delegate :=
  ⟨emptyDelegResp, emptyDelegResp, emptyDelegResp, .ok none, true, true⟩

/-- A delegate standing for the state in which the supplied email is
unregistered (its forget-password outcome differs). -/
def unregisteredEmailDelegate : Delegate :=
  ⟨emptyDelegResp, emptyDelegResp, emptyDelegResp, .ok none, false, true⟩

/-- Witness for C6: a registered and an unregistered email receive the same
200 response. -/
theorem forgot_password_email_oblivious_witness :
    forgotBodyValid ⟨some (.jstr "alice@example.com")⟩ = true ∧
    forgotBodyValid ⟨some (.jstr "nobody@example.com")⟩ = true ∧
    ((forgotPasswordHandler registeredEmailDelegate (some ⟨some (.jstr "alice@example.com")⟩)).1.status = 200 ∧
      (forgotPasswordHandler registeredEmailDelegate (some ⟨some (.jstr "alice@example.com")⟩)).1.body =
        .messageB "If an account exists with this email, a password reset link has been sent" ∧
      (forgotPasswordHandler registeredEmailDelegate (some ⟨some (.jstr "alice@example.com")⟩)).1 =
        (forgotPasswordHandler unregisteredEmailDelegate (some ⟨some (.jstr "nobody@example.com")⟩)).1) :=
  ⟨by decide, by decide,
    forgot_password_email_oblivious registeredEmailDelegate unregisteredEmailDelegate
      ⟨some (.jstr "alice@example.com")⟩ ⟨some (.jstr "nobody@example.com")⟩ (by decide) (by decide)⟩

/-- C5 (code bug, logout): a logout request for which the delegate would
resolve no session is not gated at all — the handler still forwards sign-out
to the delegate and answers 200 "Logout successful" instead of an immediate
401 with no further processing. -/
theorem logout_without_session_still_processes :
    (serveRequest .logout noSessionDelegate [] 0).1.status = 200 ∧
    (serveRequest .logout noSessionDelegate [] 0).1.body = .messageB "Logout successful" ∧
    (serveRequest .logout noSessionDelegate [] 0).2.2 = [.authSignOut] :=
  ⟨rfl, rfl, rfl⟩

/-- `find?` commutes with mapping a function that does not change the
predicate's verdict. -/
theorem find?_map_pred {α : Type} (g : α → α) (p : α → Bool) (h : ∀ x, p (g x) = p x) :
    ∀ l : List α, (l.map g).find? p = (l.find? p).map g
  | [] => rfl
  | x :: xs => by
    simp only [List.map_cons, List.find?]
    rw [h x]
    cases hp : p x
    · exact find?_map_pred g p h xs
    · rfl

/-- C2: an authenticated `PUT /auth/me` whose body is the empty object is
rejected with 400 and the at-least-one-field message, the `users` table
(hence the user's row, `updatedAt` included) is left unchanged, and no
database write is traced. -/
theorem putMe_empty_body_rejected (d : Delegate) (ctx : SessionCtx) (u : User)
    (db : List User) (now : Nat)
    (hs : d.sessionRes = .ok (some ctx)) (hu : ctx.user = some u) :
    (putMeHandler d (some ⟨none, none⟩) db now).1.status = 400 ∧
    (putMeHandler d (some ⟨none, none⟩) db now).1.body =
      .errorDetails "Validation failed"
        ["name.email: At least one field (name or email) must be provided"] ∧
    (putMeHandler d (some ⟨none, none⟩) db now).2.1 = db ∧
    ∀ e ∈ (putMeHandler d (some ⟨none, none⟩) db now).2.2, e.isDbWrite = false := by
  simp [putMeHandler, hs, hu, updateViolations, optFieldIssues, optFieldIssueMsgs, fmtIssue,
    Eff.isDbWrite]

/-- Witness for C2 at a concrete session, database and time. -/
theorem putMe_empty_body_rejected_witness :
    sampleSessionDelegate.sessionRes = .ok (some sampleCtx) ∧
    sampleCtx.user = some sampleUser ∧
    ((putMeHandler sampleSessionDelegate (some ⟨none, none⟩) [sampleUser] 5).1.status = 400 ∧
      (putMeHandler sampleSessionDelegate (some ⟨none, none⟩) [sampleUser] 5).1.body =
        .errorDetails "Validation failed"
          ["name.email: At least one field (name or email) must be provided"] ∧
      (putMeHandler sampleSessionDelegate (some ⟨none, none⟩) [sampleUser] 5).2.1 = [sampleUser] ∧
      ∀ e ∈ (putMeHandler sampleSessionDelegate (some ⟨none, none⟩) [sampleUser] 5).2.2,
        e.isDbWrite = false) :=
  ⟨rfl, rfl,
    putMe_empty_body_rejected sampleSessionDelegate sampleCtx sampleUser [sampleUser] 5 rfl rfl⟩

/-- C7: an authenticated `PUT /auth/me` providing only a (valid) name leaves
every row field except `name` and `updatedAt` — the email in particular —
unchanged, sets `name` to the provided value and `updatedAt` to the current
time, leaves every other row untouched, and responds 200 with the re-read
user. -/
theorem putMe_name_only_frame (d : Delegate) (ctx : SessionCtx) (u r : User)
    (db : List User) (now : Nat) (n : String)
    (hs : d.sessionRes = .ok (some ctx)) (hu : ctx.user = some u)
    (hn : nameCheckMsgs n = [])
    (hr : db.find? (fun x => x.id == u.id) = some r)
    (hok : userRecordOk { r with name := some n, updatedAt := now } = true) :
    (putMeHandler d (some ⟨some (.jstr n), none⟩) db now).1.status = 200 ∧
    (putMeHandler d (some ⟨some (.jstr n), none⟩) db now).1.body =
      .userB { r with name := some n, updatedAt := now } ∧
    (putMeHandler d (some ⟨some (.jstr n), none⟩) db now).2.1 =
      db.map fun x => if x.id = u.id then { x with name := some n, updatedAt := now } else x := by
  have hrow : ∀ x : User, applyRowUpdate x ⟨some (.jstr n), none⟩ now =
      { x with name := some n, updatedAt := now } := fun x => rfl
  have hpred : ∀ x : User,
      (fun y : User => y.id == u.id)
        (if x.id = u.id then { x with name := some n, updatedAt := now } else x) =
      (fun y : User => y.id == u.id) x := by
    intro x
    by_cases hx : x.id = u.id <;> simp [hx]
  have hfind : (db.map fun x =>
        if x.id = u.id then { x with name := some n, updatedAt := now } else x).find?
      (fun y => y.id == u.id) = some { r with name := some n, updatedAt := now } := by
    rw [find?_map_pred _ _ hpred db, hr]
    have : r.id = u.id := by simpa using List.find?_some hr
    simp [this]
  have hviol : updateViolations ⟨some (.jstr n), none⟩ = [] := by
    simp [updateViolations, optFieldIssues, optFieldIssueMsgs, hn]
  have hupd : applyUserUpdate db u.id ⟨some (.jstr n), none⟩ now =
      db.map fun x => if x.id = u.id then { x with name := some n, updatedAt := now } else x := by
    simp only [applyUserUpdate, hrow]
  simp [putMeHandler, hs, hu, hviol, hupd, hfind, transformUserResponse, hok]

/-- Witness for C7: renaming `sampleUser` to "Alice B" at time 5 rewrites
only `name` and `updatedAt` and answers 200 with the updated row. -/
theorem putMe_name_only_frame_witness :
    nameCheckMsgs "Alice B" = [] ∧
    [sampleUser].find? (fun x => x.id == sampleUser.id) = some sampleUser ∧
    userRecordOk { sampleUser with name := some "Alice B", updatedAt := 5 } = true ∧
    ((putMeHandler sampleSessionDelegate (some ⟨some (.jstr "Alice B"), none⟩) [sampleUser] 5).1.status = 200 ∧
      (putMeHandler sampleSessionDelegate (some ⟨some (.jstr "Alice B"), none⟩) [sampleUser] 5).1.body =
        .userB { sampleUser with name := some "Alice B", updatedAt := 5 } ∧
      (putMeHandler sampleSessionDelegate (some ⟨some (.jstr "Alice B"), none⟩) [sampleUser] 5).2.1 =
        [sampleUser].map fun x =>
          if x.id = sampleUser.id then { x with name := some "Alice B", updatedAt := 5 } else x) :=
  ⟨by decide, by decide, by decide,
    putMe_name_only_frame sampleSessionDelegate sampleCtx sampleUser sampleUser [sampleUser] 5
      "Alice B" rfl rfl (by decide) (by decide) (by decide)⟩

/-- A registration body violating several schema rules at once. -/
def badRegisterBody : RegisterBody :=
  ⟨some (.jstr "bad"), some (.jstr "short"), none⟩

/-- A registration body satisfying every rule of `registerSchema`. -/
def goodRegisterBody : RegisterBody :=
  ⟨some (.jstr "alice@example.com"), some (.jstr "Passw0rd1"), some (.jstr "Alice")⟩

/-- A delegate whose sign-up succeeds with `sampleUser`. -/
def acceptingSignUpDelegate : Delegate :=
  ⟨⟨200, none, some sampleUser, none, none⟩, emptyDelegResp, emptyDelegResp, .ok none, true, true⟩

/-- C4: a register request violating the register schema is answered 400
without any delegate call (sign-up in particular is never invoked), and a
schema-valid request the delegate accepts is answered 201 with the mapped
user. -/
theorem register_schema_gates_delegate (d : Delegate) (b : RegisterBody) :
    (registerViolations b ≠ [] →
      (registerHandler d (some b)).1.status = 400 ∧ (registerHandler d (some b)).2 = []) ∧
    (∀ u u2, registerViolations b = [] → d.signUpResp.status < 400 →
      d.signUpResp.user = some u → transformUserResponse u = .ok u2 →
      (registerHandler d (some b)).1 = ⟨201, .messageUser "Registration successful" u2, none⟩) := by
  constructor
  · intro h
    simp [registerHandler, h]
  · intro u u2 hv hst hu ht
    have hlt : ¬ 400 ≤ d.signUpResp.status := by omega
    simp [registerHandler, hv, hlt, hu, ht]

/-- Witness for C4: a concrete invalid body is rejected without a delegate
call, and a concrete valid one is accepted with status 201. -/
theorem register_schema_gates_delegate_witness :
    ((registerHandler acceptingSignUpDelegate (some badRegisterBody)).1.status = 400 ∧
      (registerHandler acceptingSignUpDelegate (some badRegisterBody)).2 = []) ∧
    (registerHandler acceptingSignUpDelegate (some goodRegisterBody)).1 =
      ⟨201, .messageUser "Registration successful" sampleUser, none⟩ :=
  ⟨(register_schema_gates_delegate acceptingSignUpDelegate badRegisterBody).1 (by decide),
    (register_schema_gates_delegate acceptingSignUpDelegate goodRegisterBody).2 sampleUser
      sampleUser (by decide) (by decide) (by decide) (by decide)⟩

/-! ## C1: the validator reports exactly one entry per violated rule -/

/-- The invalid-type messages a string field can receive. -/
def typeErrMsgs : List String :=
  ["Expected string, received string", "Expected string, received number",
   "Expected string, received boolean", "Expected string, received null",
   "Expected string, received array", "Expected string, received object"]

/-- Every message the email field of `registerSchema` can report. -/
def emailRuleMsgs : List String :=
  "Required" :: typeErrMsgs ++
    ["Invalid email format", "Email is required", "Email is too long"]

/-- Every message the password field of `registerSchema` can report. -/
def passwordRuleMsgs : List String :=
  "Required" :: typeErrMsgs ++
    ["Password must be at least 8 characters", "Password is too long",
     "Password must contain at least one lowercase letter, one uppercase letter, and one number"]

/-- Every message the name field of `registerSchema` can report. -/
def nameRuleMsgs : List String :=
  "Required" :: typeErrMsgs ++
    ["Name is required", "Name is too long",
     "Name can only contain letters, spaces, hyphens, and apostrophes"]

/-- A superset of the `(path, message)` pairs `registerSchema` can ever
report, one per schema rule. -/
def allRegisterRules : List (String × String) :=
  emailRuleMsgs.map (fun m => ("email", m)) ++
  passwordRuleMsgs.map (fun m => ("password", m)) ++
  nameRuleMsgs.map (fun m => ("name", m))

/-- Each check message list is duplicate-free. -/
theorem emailCheckMsgs_nodup (s : String) : (emailCheckMsgs s).Nodup := by
  unfold emailCheckMsgs
  split_ifs <;> decide

/-- Each check message list is duplicate-free. -/
theorem passwordCheckMsgs_nodup (s : String) : (passwordCheckMsgs s).Nodup := by
  unfold passwordCheckMsgs
  split_ifs <;> decide

/-- Each check message list is duplicate-free. -/
theorem nameCheckMsgs_nodup (s : String) : (nameCheckMsgs s).Nodup := by
  unfold nameCheckMsgs
  split_ifs <;> decide

/-- The check messages of the email field stay within its rule table. -/
theorem emailCheckMsgs_sub (s : String) : ∀ m ∈ emailCheckMsgs s, m ∈ emailRuleMsgs := by
  unfold emailCheckMsgs
  split_ifs <;> decide

/-- The check messages of the password field stay within its rule table. -/
theorem passwordCheckMsgs_sub (s : String) : ∀ m ∈ passwordCheckMsgs s, m ∈ passwordRuleMsgs := by
  unfold passwordCheckMsgs
  split_ifs <;> decide

/-- The check messages of the name field stay within its rule table. -/
theorem nameCheckMsgs_sub (s : String) : ∀ m ∈ nameCheckMsgs s, m ∈ nameRuleMsgs := by
  unfold nameCheckMsgs
  split_ifs <;> decide

/-- The issues of one field stay within that field's rule table, provided
its check messages do. -/
theorem fieldIssueMsgs_sub (checks : String → List String) (ruleMsgs : List String)
    (hreq : "Required" ∈ ruleMsgs) (htype : ∀ m ∈ typeErrMsgs, m ∈ ruleMsgs)
    (hchk : ∀ s, ∀ m ∈ checks s, m ∈ ruleMsgs) :
    ∀ v, ∀ m ∈ fieldIssueMsgs checks v, m ∈ ruleMsgs := by
  intro v m hm
  rcases v with _ | jv
  · simp [fieldIssueMsgs] at hm
    simpa [hm] using hreq
  · cases jv with
    | jstr s => exact hchk s m hm
    | jnum => simp [fieldIssueMsgs, JVal.typeName] at hm; exact hm ▸ htype _ (by decide)
    | jbool => simp [fieldIssueMsgs, JVal.typeName] at hm; exact hm ▸ htype _ (by decide)
    | jnull => simp [fieldIssueMsgs, JVal.typeName] at hm; exact hm ▸ htype _ (by decide)
    | jarr => simp [fieldIssueMsgs, JVal.typeName] at hm; exact hm ▸ htype _ (by decide)
    | jobj => simp [fieldIssueMsgs, JVal.typeName] at hm; exact hm ▸ htype _ (by decide)

/-- The issues of one field all carry that field's path. -/
theorem mem_fieldIssues_fst {fld : String} {checks : String → List String} {v : Option JVal}
    {p : String × String} (hp : p ∈ fieldIssues fld checks v) : p.1 = fld := by
  obtain ⟨m, _, rfl⟩ := List.mem_map.1 hp
  rfl

/-- The issues of one field are duplicate-free, provided its check messages
are. -/
theorem fieldIssues_nodup (fld : String) (checks : String → List String)
    (hchk : ∀ s, (checks s).Nodup) (v : Option JVal) : (fieldIssues fld checks v).Nodup := by
  apply List.Nodup.map (fun a b h => congrArg Prod.snd h)
  rcases v with _ | jv
  · simp [fieldIssueMsgs]
  · cases jv with
    | jstr s => exact hchk s
    | jnum => simp [fieldIssueMsgs]
    | jbool => simp [fieldIssueMsgs]
    | jnull => simp [fieldIssueMsgs]
    | jarr => simp [fieldIssueMsgs]
    | jobj => simp [fieldIssueMsgs]

/-- The register validator's issue list is duplicate-free. -/
theorem registerViolations_nodup (b : RegisterBody) : (registerViolations b).Nodup := by
  unfold registerViolations
  have d1 := fieldIssues_nodup "email" emailCheckMsgs emailCheckMsgs_nodup b.email
  have d2 := fieldIssues_nodup "password" passwordCheckMsgs passwordCheckMsgs_nodup b.password
  have d3 := fieldIssues_nodup "name" nameCheckMsgs nameCheckMsgs_nodup b.name
  have dj23 : (fieldIssues "password" passwordCheckMsgs b.password).Disjoint
      (fieldIssues "name" nameCheckMsgs b.name) := by
    intro p hp hq
    have h1 := mem_fieldIssues_fst hp
    have h2 := mem_fieldIssues_fst hq
    rw [h1] at h2
    exact absurd h2 (by decide)
  have dj123 : (fieldIssues "email" emailCheckMsgs b.email).Disjoint
      ((fieldIssues "password" passwordCheckMsgs b.password) ++
        (fieldIssues "name" nameCheckMsgs b.name)) := by
    intro p hp hq
    have h1 := mem_fieldIssues_fst hp
    rcases List.mem_append.1 hq with h | h
    · have h2 := mem_fieldIssues_fst h
      rw [h1] at h2
      exact absurd h2 (by decide)
    · have h2 := mem_fieldIssues_fst h
      rw [h1] at h2
      exact absurd h2 (by decide)
  rw [List.append_assoc]
  exact d1.append (d2.append d3 dj23) dj123

/-- Every issue the register validator reports is a rule of the register
rule table. -/
theorem registerViolations_sub (b : RegisterBody) :
    ∀ p ∈ registerViolations b, p ∈ allRegisterRules := by
  intro p hp
  unfold registerViolations at hp
  unfold allRegisterRules
  rw [List.append_assoc] at hp
  rcases List.mem_append.1 hp with h | h
  · obtain ⟨m, hm, rfl⟩ := List.mem_map.1 (by simpa [fieldIssues] using h)
    have hms := fieldIssueMsgs_sub emailCheckMsgs emailRuleMsgs (by decide) (by decide)
      emailCheckMsgs_sub b.email m hm
    exact List.mem_append_left _ (List.mem_append_left _ (List.mem_map_of_mem _ hms))
  · rcases List.mem_append.1 h with h1 | h1
    · obtain ⟨m, hm, rfl⟩ := List.mem_map.1 (by simpa [fieldIssues] using h1)
      have hms := fieldIssueMsgs_sub passwordCheckMsgs passwordRuleMsgs (by decide) (by decide)
        passwordCheckMsgs_sub b.password m hm
      exact List.mem_append_left _ (List.mem_append_right _ (List.mem_map_of_mem _ hms))
    · obtain ⟨m, hm, rfl⟩ := List.mem_map.1 (by simpa [fieldIssues] using h1)
      have hms := fieldIssueMsgs_sub nameCheckMsgs nameRuleMsgs (by decide) (by decide)
        nameCheckMsgs_sub b.name m hm
      exact List.mem_append_right _ (List.mem_map_of_mem _ hms)

/-- Formatting the register rule table field-qualified keeps its entries
pairwise distinct. -/
theorem allRegisterRules_fmt_nodup : (allRegisterRules.map fmtIssue).Nodup := by
  decide

/-- The formatted error array of the register validator is duplicate-free. -/
theorem registerErrors_nodup (b : RegisterBody) : (registerErrors b).Nodup := by
  apply List.Nodup.map_on _ (registerViolations_nodup b)
  intro x hx y hy hxy
  exact List.inj_on_of_nodup_map allRegisterRules_fmt_nodup
    (registerViolations_sub b x hx) (registerViolations_sub b y hy) hxy

/-- C1: a registration body that parses but violates at least one schema
rule is answered 400, and the `details` array is exactly the violated rules
formatted field-qualified — one entry per violated rule, no duplicates, no
omissions. -/
theorem register_validation_reports_all (d : Delegate) (b : RegisterBody)
    (h : registerViolations b ≠ []) :
    (registerHandler d (some b)).1.status = 400 ∧
    (registerHandler d (some b)).1.body = .errorDetails "Validation failed" (registerErrors b) ∧
    (registerErrors b).Nodup ∧
    (∀ p ∈ registerViolations b, (registerErrors b).count (fmtIssue p) = 1) ∧
    (∀ s ∈ registerErrors b, ∃ p ∈ registerViolations b, s = fmtIssue p) := by
  refine ⟨by simp [registerHandler, h], by simp [registerHandler, h], registerErrors_nodup b,
    fun p hp => List.count_eq_one_of_mem (registerErrors_nodup b)
      (List.mem_map_of_mem _ hp), fun s hs => ?_⟩
  obtain ⟨p, hp, rfl⟩ := List.mem_map.1 hs
  exact ⟨p, hp, rfl⟩

/-- Witness for C1 at a registration body violating four rules across three
fields. -/
theorem register_validation_reports_all_witness :
    registerViolations badRegisterBody ≠ [] ∧
    ((registerHandler noSessionDelegate (some badRegisterBody)).1.status = 400 ∧
      (registerHandler noSessionDelegate (some badRegisterBody)).1.body =
        .errorDetails "Validation failed" (registerErrors badRegisterBody) ∧
      (registerErrors badRegisterBody).Nodup ∧
      (∀ p ∈ registerViolations badRegisterBody,
        (registerErrors badRegisterBody).count (fmtIssue p) = 1) ∧
      (∀ s ∈ registerErrors badRegisterBody,
        ∃ p ∈ registerViolations badRegisterBody, s = fmtIssue p)) :=
  ⟨by decide, register_validation_reports_all noSessionDelegate badRegisterBody (by decide)⟩

/-! ## C8: direct database writes are confined to the users table -/

/-- An effect is an allowed persistence write: any non-write effect, an
update of the `users` table touching only `name`, `email` and `updatedAt`,
or a deletion of a `users` row.  Writes to the session, account or
verification tables are not allowed. -/
def writeOk : Eff → Bool
  | .dbUpdate t _ cols =>
    t == .users && cols.all fun c => c == "name" || c == "email" || c == "updatedAt"
  | .dbDelete t _ => t == .users
  | _ => true

/-- The columns `PUT /auth/me` sets are always among `name`, `email`,
`updatedAt`. -/
theorem updateCols_allowed (b : UpdateBody) :
    ((updateCols b).all fun c => c == "name" || c == "email" || c == "updatedAt") = true := by
  unfold updateCols
  split_ifs <;> decide

/-- C8: over every endpoint of the service and every delegate outcome,
database state and time, every traced effect is an allowed persistence
write — the only direct writes are `users` updates confined to
`name`/`email`/`updatedAt` and `users` deletions; the session, account and
verification tables are never written directly. -/
theorem persistence_writes_restricted (req : ApiRequest) (d : Delegate) (db : List User)
    (now : Nat) : ∀ e ∈ (serveRequest req d db now).2.2, writeOk e = true := by
  intro e he
  cases req with
  | health => simp [serveRequest] at he
  | notFound => simp [serveRequest] at he
  | passthrough =>
    simp [serveRequest] at he
    subst he; rfl
  | logout =>
    simp [serveRequest, logoutHandler] at he
    subst he; rfl
  | refresh =>
    simp only [serveRequest] at he
    unfold refreshHandler at he
    split at he <;> (simp at he; subst he; rfl)
  | getMe =>
    simp only [serveRequest] at he
    unfold getMeHandler at he
    split at he <;> try (simp at he; subst he; rfl)
    split at he <;> try (simp at he; subst he; rfl)
    split at he <;> (simp at he; subst he; rfl)
  | register b =>
    simp only [serveRequest] at he
    rcases b with _ | rb
    · simp [registerHandler] at he
    · simp only [registerHandler] at he
      split at he
      · split at he
        · simp at he; subst he; rfl
        · split at he
          · split at he <;> (simp at he; subst he; rfl)
          · simp at he; subst he; rfl
      · simp at he
  | login b =>
    simp only [serveRequest] at he
    rcases b with _ | lb
    · simp [loginHandler] at he
    · simp only [loginHandler] at he
      split at he
      · split at he
        · simp at he; subst he; rfl
        · split at he
          · split at he <;> (simp at he; subst he; rfl)
          · simp at he; subst he; rfl
      · simp at he
  | forgotPassword b =>
    simp only [serveRequest] at he
    rcases b with _ | fb
    · simp [forgotPasswordHandler] at he
    · simp only [forgotPasswordHandler] at he
      split at he
      · simp at he; subst he; rfl
      · simp at he
  | resetPassword b =>
    simp only [serveRequest] at he
    rcases b with _ | rb
    · simp [resetPasswordHandler] at he
    · simp only [resetPasswordHandler] at he
      split at he
      · split at he <;> (simp at he; subst he; rfl)
      · simp at he
  | deleteMe =>
    simp only [serveRequest] at he
    unfold deleteMeHandler at he
    split at he <;> try (simp at he; subst he; rfl)
    split at he
    · simp at he; subst he; rfl
    · simp at he
      rcases he with he | he | he <;> subst he <;> rfl
  | putMe b =>
    simp only [serveRequest] at he
    unfold putMeHandler at he
    split at he <;> try (simp at he; subst he; rfl)
    split at he
    · simp at he; subst he; rfl
    · split at he
      · simp at he; subst he; rfl
      · rename_i ub
        split at he
        · dsimp only at he
          simp only [List.mem_append, List.mem_singleton] at he
          rcases he with (he | he) | he
          · subst he; rfl
          · split at he
            · simp at he
            · simp only [List.mem_singleton] at he
              subst he
              simp [writeOk, updateCols_allowed ub]
          · subst he; rfl
        · simp at he; subst he; rfl

/-- Witness for C8: the concrete `users`-table write of a name-only profile
update is an allowed persistence write. -/
theorem persistence_writes_restricted_witness :
    Eff.dbUpdate .users "u1" (updateCols ⟨some (.jstr "Alice B"), none⟩) ∈
      (serveRequest (.putMe (some ⟨some (.jstr "Alice B"), none⟩))
        sampleSessionDelegate [sampleUser] 5).2.2 ∧
    writeOk (.dbUpdate .users "u1" (updateCols ⟨some (.jstr "Alice B"), none⟩)) = true :=
  ⟨by decide,
    persistence_writes_restricted (.putMe (some ⟨some (.jstr "Alice B"), none⟩))
      sampleSessionDelegate [sampleUser] 5 _ (by decide)⟩

end Servauth
